import Mathlib

/-!
Verification of the field-serialization layer of django-remote-forms
(src/django_remote_forms/fields.py), as a shallow embedding in Lean 4.

Python values flowing through the adapters are modelled by the inductive
type `Val`; the ordered dictionary built by the adapters is an association
list whose assignment preserves insertion order, mirroring OrderedDict.
-/

namespace DjangoRemoteForms

/-- A Python value as it occurs in this module: None, strings, ints, bools,
lists, (ordered) dicts, record-like objects carrying an optional pk
attribute, date or time or datetime instances (carrying an abstract
rendering seed consumed by strftime), and zero-argument callables. -/
inductive Val where
  | none
  | str (s : String)
  | int (n : Int)
  | bool (b : Bool)
  | list (xs : List Val)
  | dict (xs : List (String × Val))
  | obj (pk : Option Val)
  | pydate (seed : String)
  | pytime (seed : String)
  | pydatetime (seed : String)
  | fn (result : Val)
deriving Repr

/-- Python truthiness for the values of `Val` (empty containers, empty
strings, zero, False and None are falsy; objects, temporals and callables
are truthy). -/
def truthy : Val → Bool
  | Val.none => false
  | Val.str s => !s.isEmpty
  | Val.int n => n != 0
  | Val.bool b => b
  | Val.list xs => !xs.isEmpty
  | Val.dict xs => !xs.isEmpty
  | Val.obj _ => true
  | Val.pydate _ => true
  | Val.pytime _ => true
  | Val.pydatetime _ => true
  | Val.fn _ => true

/-- Python `a or b`. -/
def pyOr (a b : Val) : Val := if truthy a then a else b

/-- `callable(v)`. -/
def pyCallable : Val → Bool
  | Val.fn _ => true
  | _ => false

/-- Calling a zero-argument callable; other values are never called by the
code paths modelled here. -/
def callVal : Val → Val
  | Val.fn r => r
  | v => v

/-- `isinstance(v, datetime.date)`: true for date and also for datetime,
since datetime.datetime is a subclass of datetime.date in Python. -/
def isinstDate : Val → Bool
  | Val.pydate _ => true
  | Val.pydatetime _ => true
  | _ => false

/-- `isinstance(v, datetime.time)`: true only for time instances
(datetime.datetime is not a subclass of datetime.time). -/
def isinstTime : Val → Bool
  | Val.pytime _ => true
  | _ => false

/-- `isinstance(v, datetime.datetime)`. -/
def isinstDatetime : Val → Bool
  | Val.pydatetime _ => true
  | _ => false

/-- `isinstance(v, (datetime.datetime, datetime.time, datetime.date))`. -/
def isinstTemporal (v : Val) : Bool :=
  isinstDatetime v || isinstTime v || isinstDate v

/-- strftime on the abstract rendering seed of a temporal value: the
formatted text is modelled as the format string applied to the seed. The
concrete directive expansion is out of scope; all that the claims need is
which format string is applied to which value. -/
def strftime (v : Val) (format : String) : String :=
  match v with
  | Val.pydate seed => format ++ "@" ++ seed
  | Val.pytime seed => format ++ "@" ++ seed
  | Val.pydatetime seed => format ++ "@" ++ seed
  | _ => format

/-- The character-list worker for Python str.split on the comma separator:
always returns at least one (possibly empty) group, so the split of the
empty string is the one-element list holding the empty string, and
leading, trailing or doubled separators yield empty groups, exactly as in
Python. -/
def splitCommaChars : List Char → List (List Char)
  | [] => [[]]
  | c :: cs =>
      match splitCommaChars cs with
      | [] => if c = ',' then [[], []] else [[c]]
      | g :: gs => if c = ',' then [] :: g :: gs else (c :: g) :: gs

/-- Python `value.split(",")`. -/
def pySplitComma (s : String) : List String :=
  (splitCommaChars s.data).map String.mk

/-- Ordered-dictionary assignment `d[k] = v`: overwrite in place when the
key exists (keeping insertion order), else append at the end. -/
def odSet (d : List (String × Val)) (k : String) (v : Val) : List (String × Val) :=
  if d.any (fun p => p.1 == k) then
    d.map (fun p => if p.1 == k then (k, v) else p)
  else
    d ++ [(k, v)]

/-- Ordered-dictionary lookup `d[k]` (the adapters only read keys they have
already written; a missing key, a KeyError in Python, is mapped to None). -/
def odGet (d : List (String × Val)) (k : String) : Val :=
  match d.find? (fun p => p.1 == k) with
  | some p => p.2
  | Option.none => Val.none

/-- `dict.update` with a literal mapping: assign each pair in order. -/
def odUpdate (d : List (String × Val)) (kvs : List (String × Val)) : List (String × Val) :=
  kvs.foldl (fun acc p => odSet acc p.1 p.2) d

/-- The key list of the ordered dictionary. -/
def odKeys (d : List (String × Val)) : List String := d.map (fun p => p.1)

/-- The attributes of a Django form field that fields.py reads. A single
structure carries the attributes of every field category; each adapter
only reads the attributes its Python counterpart reads. Choice keys are
modelled as strings, so the str() applied to a choice key by the choice
adapter is the identity. -/
structure Field where
  className : String
  required : Bool
  label : Val
  initial : Val
  help_text : Val
  disabled : Bool
  error_messages : Val
  widgetClassName : String
  max_length : Val
  min_length : Val
  max_value : Val
  min_value : Val
  max_digits : Val
  decimal_places : Val
  input_formats : List String
  choices : List (String × String)
  coerce : Val
  empty_value : Val
  fields : Val
  path : Val
  matchPattern : Val
  recursive : Val
  input_date_formats : Val
  input_time_formats : Val
  validate_choices : Bool
deriving Repr

/-- The process-wide format configuration read from django.conf.settings. -/
structure Settings where
  DATE_INPUT_FORMATS : List String
  TIME_INPUT_FORMATS : List String
  DATETIME_INPUT_FORMATS : List String
deriving Repr

/-- The constructor arguments of RemoteField: the wrapped field, the
form-supplied initial data (None when absent) and the field name. -/
structure RemoteField where
  field : Field
  form_initial_data : Val
  field_name : Val
deriving Repr

def DEFAULT_REMOTE_WIDGET_CLASS_NAME : String := "DefaultRemoteInput"

/-- A warning record emitted through the logging side channel: the
attempted remote widget class name and the error text of the caught
exception. -/
structure Warning where
  attemptedName : String
  errorText : String
deriving Repr, DecidableEq

/-- The error text of the AttributeError raised by getattr on the widgets
module for a missing name. -/
def getattrErrorText (name : String) : String :=
  "module django_remote_forms.widgets has no attribute " ++ name

/-- Modelled from the spec: the widgets module (absent from src/) is a
registry of remote widget class names that always contains the default
adapter DefaultRemoteInput; getattr succeeds exactly on registered names.
The registry is the list of names defined by the module. -/
def getattrWidgets (registry : List String) (name : String) : Except String String :=
  if name ∈ registry then Except.ok name
  else Except.error (getattrErrorText name)

/-- The remote widget class name derived from the widget type:
`Remote%s % self.field.widget.__class__.__name__`. -/
def remoteWidgetClassName (f : Field) : String :=
  "Remote" ++ f.widgetClassName

/-- The try/except around the widgets-module lookup in RemoteField.as_dict:
on any exception the warning is logged and the default class is used.
Returns the resolved class name together with the warning, if one was
logged. -/
def resolveRemoteWidgetClass (registry : List String) (f : Field) :
    String × Option Warning :=
  match getattrWidgets registry (remoteWidgetClassName f) with
  | Except.ok c => (c, Option.none)
  | Except.error e =>
      (DEFAULT_REMOTE_WIDGET_CLASS_NAME,
       Option.some { attemptedName := remoteWidgetClassName f, errorText := e })

/-- Modelled from the spec: the remote widget adapter (widgets module,
absent from src/) produces a nested dictionary from the widget; its
contents are out of scope here and are modelled as a dictionary tagging
the resolved adapter class. -/
def widgetAsDict (cls : String) : Val :=
  Val.dict [("remote_class", Val.str cls)]

/-- RemoteField.as_dict together with the warning possibly logged during
widget resolution. The method performs eight assignments of pairwise
distinct keys into an initially empty OrderedDict; each such assignment
appends at the end, so the resulting dictionary is written directly as
the eight entries in program order. -/
def remoteFieldAsDictLog (registry : List String) (rf : RemoteField) :
    List (String × Val) × Option Warning :=
  ([("title", Val.str rf.field.className),
    ("required", Val.bool rf.field.required),
    ("label", rf.field.label),
    ("initial", pyOr rf.form_initial_data rf.field.initial),
    ("help_text", rf.field.help_text),
    ("disabled", Val.bool rf.field.disabled),
    ("error_messages", rf.field.error_messages),
    ("widget", widgetAsDict (resolveRemoteWidgetClass registry rf.field).1)],
   (resolveRemoteWidgetClass registry rf.field).2)

/-- RemoteField.as_dict. -/
def remoteFieldAsDict (registry : List String) (rf : RemoteField) :
    List (String × Val) :=
  (remoteFieldAsDictLog registry rf).1

/-- RemoteCharField.as_dict. -/
def remoteCharFieldAsDict (registry : List String) (rf : RemoteField) :
    List (String × Val) :=
  odUpdate (remoteFieldAsDict registry rf)
    [("max_length", rf.field.max_length), ("min_length", rf.field.min_length)]

/-- RemoteIntegerField.as_dict. -/
def remoteIntegerFieldAsDict (registry : List String) (rf : RemoteField) :
    List (String × Val) :=
  odUpdate (remoteFieldAsDict registry rf)
    [("max_value", rf.field.max_value), ("min_value", rf.field.min_value)]

/-- RemoteFloatField.as_dict (pure delegation to RemoteIntegerField). -/
def remoteFloatFieldAsDict (registry : List String) (rf : RemoteField) :
    List (String × Val) :=
  remoteIntegerFieldAsDict registry rf

/-- RemoteDecimalField.as_dict. -/
def remoteDecimalFieldAsDict (registry : List String) (rf : RemoteField) :
    List (String × Val) :=
  odUpdate (remoteIntegerFieldAsDict registry rf)
    [("max_digits", rf.field.max_digits), ("decimal_places", rf.field.decimal_places)]

/-- `len` of a Val list, for `not len(field_dict[input_formats])`. -/
def valLen : Val → Nat
  | Val.list xs => xs.length
  | _ => 0

/-- `field_dict[input_formats][0]` followed by its use as a format string.
An empty list raises IndexError in Python and is outside the inputs the
claims evaluate; it is mapped to the empty format here. -/
def valFirstStr : Val → String
  | Val.list (Val.str f :: _) => f
  | _ => ""

/-- The isinstance chain of RemoteTimeField.as_dict that substitutes the
settings-wide default format list when the input_formats entry is empty:
the date check runs first, then time, then datetime. -/
def timeDefaultFormats (s : Settings) (init : Val) (d : List (String × Val)) :
    List (String × Val) :=
  if valLen (odGet d "input_formats") == 0 then
    if isinstDate init then
      odSet d "input_formats" (Val.list (s.DATE_INPUT_FORMATS.map Val.str))
    else if isinstTime init then
      odSet d "input_formats" (Val.list (s.TIME_INPUT_FORMATS.map Val.str))
    else if isinstDatetime init then
      odSet d "input_formats" (Val.list (s.DATETIME_INPUT_FORMATS.map Val.str))
    else d
  else d

/-- For a temporal initial entry, default the format list and render the
initial with the first entry of the resulting format list. -/
def timeRenderInitial (s : Settings) (d : List (String × Val)) :
    List (String × Val) :=
  if isinstTemporal (odGet d "initial") then
    odSet (timeDefaultFormats s (odGet d "initial") d) "initial"
      (Val.str (strftime (odGet d "initial")
        (valFirstStr (odGet (timeDefaultFormats s (odGet d "initial") d)
          "input_formats"))))
  else d

/-- The body of RemoteTimeField.as_dict that runs after input_formats is
copied into the dictionary: for a truthy initial entry, invoke a callable
initial, then process temporal initial values. -/
def timeFormatsAndInitial (s : Settings) (d : List (String × Val)) :
    List (String × Val) :=
  if truthy (odGet d "initial") then
    timeRenderInitial s
      (if pyCallable (odGet d "initial") then
         odSet d "initial" (callVal (odGet d "initial"))
       else d)
  else d

/-- RemoteTimeField.as_dict. -/
def remoteTimeFieldAsDict (s : Settings) (registry : List String)
    (rf : RemoteField) : List (String × Val) :=
  timeFormatsAndInitial s
    (odSet (remoteFieldAsDict registry rf) "input_formats"
      (Val.list (rf.field.input_formats.map Val.str)))

/-- RemoteDateField.as_dict (pure delegation to RemoteTimeField). -/
def remoteDateFieldAsDict (s : Settings) (registry : List String)
    (rf : RemoteField) : List (String × Val) :=
  remoteTimeFieldAsDict s registry rf

/-- RemoteDateTimeField.as_dict (pure delegation to RemoteTimeField). -/
def remoteDateTimeFieldAsDict (s : Settings) (registry : List String)
    (rf : RemoteField) : List (String × Val) :=
  remoteTimeFieldAsDict s registry rf

/-- RemoteRegexField.as_dict (delegation to RemoteCharField; the regex
pattern is deliberately not serialized). -/
def remoteRegexFieldAsDict (registry : List String) (rf : RemoteField) :
    List (String × Val) :=
  remoteCharFieldAsDict registry rf

/-- RemoteEmailField.as_dict. -/
def remoteEmailFieldAsDict (registry : List String) (rf : RemoteField) :
    List (String × Val) :=
  remoteCharFieldAsDict registry rf

/-- RemoteFileField.as_dict. -/
def remoteFileFieldAsDict (registry : List String) (rf : RemoteField) :
    List (String × Val) :=
  odSet (remoteFieldAsDict registry rf) "max_length" rf.field.max_length

/-- RemoteImageField.as_dict. -/
def remoteImageFieldAsDict (registry : List String) (rf : RemoteField) :
    List (String × Val) :=
  remoteFileFieldAsDict registry rf

/-- RemoteURLField.as_dict. -/
def remoteURLFieldAsDict (registry : List String) (rf : RemoteField) :
    List (String × Val) :=
  remoteCharFieldAsDict registry rf

/-- RemoteBooleanField.as_dict. -/
def remoteBooleanFieldAsDict (registry : List String) (rf : RemoteField) :
    List (String × Val) :=
  remoteFieldAsDict registry rf

/-- RemoteNullBooleanField.as_dict. -/
def remoteNullBooleanFieldAsDict (registry : List String) (rf : RemoteField) :
    List (String × Val) :=
  remoteBooleanFieldAsDict registry rf

/-- The dictionary serialized for one (key, display) choice pair:
value is str(key) (identity on the string-keyed choices modelled here)
and display is the label. -/
def mkChoiceOption (p : String × String) : Val :=
  Val.dict [("value", Val.str p.1), ("display", Val.str p.2)]

/-- The serialized choices list built by RemoteChoiceField.as_dict. -/
def serializeChoicePairs (cs : List (String × String)) : Val :=
  Val.list (cs.map mkChoiceOption)

/-- RemoteChoiceField.as_dict. -/
def remoteChoiceFieldAsDict (registry : List String) (rf : RemoteField) :
    List (String × Val) :=
  odSet (remoteFieldAsDict registry rf) "choices"
    (serializeChoicePairs rf.field.choices)

/-- `getattr(x, pk, x)`: the pk attribute when the object has one, the
value itself otherwise. -/
def getattrPkDefault : Val → Val
  | Val.obj (Option.some pk) => pk
  | v => v

/-- RemoteModelChoiceField.as_dict. -/
def remoteModelChoiceFieldAsDict (registry : List String) (rf : RemoteField) :
    List (String × Val) :=
  let d := remoteChoiceFieldAsDict registry rf
  odSet d "initial" (getattrPkDefault (odGet d "initial"))

/-- RemoteTypedChoiceField.as_dict. -/
def remoteTypedChoiceFieldAsDict (registry : List String) (rf : RemoteField) :
    List (String × Val) :=
  odUpdate (remoteChoiceFieldAsDict registry rf)
    [("coerce", rf.field.coerce), ("empty_value", rf.field.empty_value)]

/-- RemoteMultipleChoiceField.as_dict. -/
def remoteMultipleChoiceFieldAsDict (registry : List String) (rf : RemoteField) :
    List (String × Val) :=
  remoteChoiceFieldAsDict registry rf

/-- The display label RemoteCommaSeparatedField.as_dict synthesizes for a
token of the split initial value: the token suffixed with the Not-valid
marker when validate_choices is set on the field, the raw token
otherwise. -/
def commaDisplay (validate : Bool) (t : String) : String :=
  if validate then t ++ " (Not valid)" else t

/-- One iteration of the loop of RemoteCommaSeparatedField.as_dict: the
synthesized option is appended unless an identical option (same value and
same display) is already present in the growing choices list. Options are
tracked as (value, display) pairs, which determine the serialized two-key
dictionaries bijectively, so membership of the option dictionary in the
choices list coincides with membership of the pair. -/
def commaOptionStep (validate : Bool) (cs : List (String × String))
    (t : String) : List (String × String) :=
  if cs.contains (t, commaDisplay validate t) then cs
  else cs ++ [(t, commaDisplay validate t)]

/-- The loop of RemoteCommaSeparatedField.as_dict over the tokens of the
split initial value, threading the growing choices list. -/
def commaChoicePairs (validate : Bool) (declared : List (String × String))
    (tokens : List String) : List (String × String) :=
  tokens.foldl (commaOptionStep validate) declared

/-- The conditional body of RemoteCommaSeparatedField.as_dict, applied to
the parent output: for a truthy string initial, split it on the comma and
extend the choices entry by the token loop. A truthy non-string initial
would raise AttributeError on split in Python and is outside the modelled
inputs; it leaves the dictionary unchanged here. -/
def commaStep (validate : Bool) (declared : List (String × String))
    (d : List (String × Val)) : List (String × Val) :=
  if truthy (odGet d "initial") then
    match odGet d "initial" with
    | Val.str s0 =>
        odSet d "choices" (serializeChoicePairs
          (commaChoicePairs validate declared (pySplitComma s0)))
    | _ => d
  else d

/-- RemoteCommaSeparatedField.as_dict. The parent output stores exactly
the serialization of the declared choice pairs under the choices key
(lemma odGet_choiceField_choices below), so the token loop runs on the
declared pairs. -/
def remoteCommaSeparatedFieldAsDict (registry : List String) (rf : RemoteField) :
    List (String × Val) :=
  commaStep rf.field.validate_choices rf.field.choices
    (remoteMultipleChoiceFieldAsDict registry rf)

/-- The initial rewrite of RemoteModelMultipleChoiceField.as_dict applied
to the parent output: element-wise pk extraction when the initial entry
is exactly a list, single pk extraction otherwise. -/
def modelMultipleInitialStep (d : List (String × Val)) :
    List (String × Val) :=
  match odGet d "initial" with
  | Val.list xs => odSet d "initial" (Val.list (xs.map getattrPkDefault))
  | v => odSet d "initial" (getattrPkDefault v)

/-- RemoteModelMultipleChoiceField.as_dict. -/
def remoteModelMultipleChoiceFieldAsDict (registry : List String)
    (rf : RemoteField) : List (String × Val) :=
  modelMultipleInitialStep (remoteMultipleChoiceFieldAsDict registry rf)

/-- RemoteTypedMultipleChoiceField.as_dict. -/
def remoteTypedMultipleChoiceFieldAsDict (registry : List String)
    (rf : RemoteField) : List (String × Val) :=
  odUpdate (remoteMultipleChoiceFieldAsDict registry rf)
    [("coerce", rf.field.coerce), ("empty_value", rf.field.empty_value)]

/-- RemoteComboField.as_dict. -/
def remoteComboFieldAsDict (registry : List String) (rf : RemoteField) :
    List (String × Val) :=
  odSet (remoteFieldAsDict registry rf) "fields" rf.field.fields

/-- RemoteMultiValueField.as_dict. -/
def remoteMultiValueFieldAsDict (registry : List String) (rf : RemoteField) :
    List (String × Val) :=
  odSet (remoteFieldAsDict registry rf) "fields" rf.field.fields

/-- RemoteFilePathField.as_dict. -/
def remoteFilePathFieldAsDict (registry : List String) (rf : RemoteField) :
    List (String × Val) :=
  odUpdate (remoteChoiceFieldAsDict registry rf)
    [("path", rf.field.path), ("match", rf.field.matchPattern),
     ("recursive", rf.field.recursive)]

/-- RemoteSplitDateTimeField.as_dict. -/
def remoteSplitDateTimeFieldAsDict (registry : List String) (rf : RemoteField) :
    List (String × Val) :=
  odUpdate (remoteMultiValueFieldAsDict registry rf)
    [("input_date_formats", rf.field.input_date_formats),
     ("input_time_formats", rf.field.input_time_formats)]

/-- RemoteIPAddressField.as_dict. -/
def remoteIPAddressFieldAsDict (registry : List String) (rf : RemoteField) :
    List (String × Val) :=
  remoteCharFieldAsDict registry rf

/-- RemoteGenericIPAddressField.as_dict. -/
def remoteGenericIPAddressFieldAsDict (registry : List String)
    (rf : RemoteField) : List (String × Val) :=
  remoteCharFieldAsDict registry rf

/-- RemoteSlugField.as_dict. -/
def remoteSlugFieldAsDict (registry : List String) (rf : RemoteField) :
    List (String × Val) :=
  remoteCharFieldAsDict registry rf

/-- The state of a CommaSeparatedField instance: the attributes its
methods read and mutate. -/
structure CommaSeparatedField where
  required : Bool
  choices : List (String × String)
  validate_choices : Bool
deriving Repr, DecidableEq

/-- One iteration of the list comprehension inside
CommaSeparatedField.prepare_value: the token v is appended as the pair
(v, v suffixed with the Not-valid marker) when validate_choices is set, v
is truthy (non-empty) and the pair (v, v) is not already among the
choices. -/
def prepareValueStep (validate : Bool) (cs : List (String × String))
    (v : String) : List (String × String) :=
  if validate && !v.isEmpty && !cs.contains (v, v) then
    cs ++ [(v, v ++ " (Not valid)")]
  else cs

/-- The choice-list mutation performed by the list comprehension inside
CommaSeparatedField.prepare_value; the membership test sees the appends
made for earlier tokens, since the comprehension mutates self.choices as
it runs. -/
def prepareValueChoices (f : CommaSeparatedField) (tokens : List String) :
    List (String × String) :=
  tokens.foldl (prepareValueStep f.validate_choices) f.choices

/-- CommaSeparatedField.prepare_value: on a string, split on the comma,
register unseen tokens in the choice list and return the split list; any
other value is returned unchanged. Returns the mutated field together
with the returned value. -/
def prepare_value (f : CommaSeparatedField) (value : Val) :
    CommaSeparatedField × Val :=
  match value with
  | Val.str s0 =>
      ({ f with choices := prepareValueChoices f (pySplitComma s0) },
       Val.list ((pySplitComma s0).map Val.str))
  | v => (f, v)

/-- Modelled from the spec: Django ChoiceField.valid_value (absent from
src/, external framework) checks membership of the candidate among the
declared choice keys. -/
def choiceFieldValidValue (f : CommaSeparatedField) (v : String) : Bool :=
  f.choices.any (fun p => p.1 == v)

/-- CommaSeparatedField.valid_value: standard membership when
validate_choices is set, unconditionally true otherwise. -/
def valid_value (f : CommaSeparatedField) (v : String) : Bool :=
  if f.validate_choices then choiceFieldValidValue f v else true

/-- Modelled from the spec: Django MultipleChoiceField.clean (absent from
src/, external framework) — the standard multi-choice clean produces the
list of string values after validating that a required field is non-empty
and that every value passes valid_value; a failure raises a
ValidationError, modelled as the error kind. -/
def multipleChoiceClean (f : CommaSeparatedField) (value : List String) :
    Except String (List String) :=
  if f.required && value.isEmpty then Except.error "required"
  else if value.all (valid_value f) then Except.ok value
  else Except.error "invalid_choice"

/-- CommaSeparatedField.clean: delegate to the standard multi-choice
clean, then rejoin the resulting list with commas into a single string. -/
def clean (f : CommaSeparatedField) (value : List String) :
    Except String String :=
  match multipleChoiceClean f value with
  | Except.ok cleaned => Except.ok (String.intercalate "," cleaned)
  | Except.error e => Except.error e

/-- The field-adapter classes of fields.py, one constructor per class. -/
inductive AdapterKind where
  | field
  | charField
  | integerField
  | floatField
  | decimalField
  | timeField
  | dateField
  | dateTimeField
  | regexField
  | emailField
  | fileField
  | imageField
  | urlField
  | booleanField
  | nullBooleanField
  | choiceField
  | modelChoiceField
  | typedChoiceField
  | multipleChoiceField
  | commaSeparatedField
  | modelMultipleChoiceField
  | typedMultipleChoiceField
  | comboField
  | multiValueField
  | filePathField
  | splitDateTimeField
  | ipAddressField
  | genericIPAddressField
  | slugField
deriving Repr, DecidableEq

/-- Dispatch from an adapter class to its as_dict function. -/
def asDictOf (a : AdapterKind) (s : Settings) (registry : List String)
    (rf : RemoteField) : List (String × Val) :=
  match a with
  | AdapterKind.field => remoteFieldAsDict registry rf
  | AdapterKind.charField => remoteCharFieldAsDict registry rf
  | AdapterKind.integerField => remoteIntegerFieldAsDict registry rf
  | AdapterKind.floatField => remoteFloatFieldAsDict registry rf
  | AdapterKind.decimalField => remoteDecimalFieldAsDict registry rf
  | AdapterKind.timeField => remoteTimeFieldAsDict s registry rf
  | AdapterKind.dateField => remoteDateFieldAsDict s registry rf
  | AdapterKind.dateTimeField => remoteDateTimeFieldAsDict s registry rf
  | AdapterKind.regexField => remoteRegexFieldAsDict registry rf
  | AdapterKind.emailField => remoteEmailFieldAsDict registry rf
  | AdapterKind.fileField => remoteFileFieldAsDict registry rf
  | AdapterKind.imageField => remoteImageFieldAsDict registry rf
  | AdapterKind.urlField => remoteURLFieldAsDict registry rf
  | AdapterKind.booleanField => remoteBooleanFieldAsDict registry rf
  | AdapterKind.nullBooleanField => remoteNullBooleanFieldAsDict registry rf
  | AdapterKind.choiceField => remoteChoiceFieldAsDict registry rf
  | AdapterKind.modelChoiceField => remoteModelChoiceFieldAsDict registry rf
  | AdapterKind.typedChoiceField => remoteTypedChoiceFieldAsDict registry rf
  | AdapterKind.multipleChoiceField => remoteMultipleChoiceFieldAsDict registry rf
  | AdapterKind.commaSeparatedField => remoteCommaSeparatedFieldAsDict registry rf
  | AdapterKind.modelMultipleChoiceField => remoteModelMultipleChoiceFieldAsDict registry rf
  | AdapterKind.typedMultipleChoiceField => remoteTypedMultipleChoiceFieldAsDict registry rf
  | AdapterKind.comboField => remoteComboFieldAsDict registry rf
  | AdapterKind.multiValueField => remoteMultiValueFieldAsDict registry rf
  | AdapterKind.filePathField => remoteFilePathFieldAsDict registry rf
  | AdapterKind.splitDateTimeField => remoteSplitDateTimeFieldAsDict registry rf
  | AdapterKind.ipAddressField => remoteIPAddressFieldAsDict registry rf
  | AdapterKind.genericIPAddressField => remoteGenericIPAddressFieldAsDict registry rf
  | AdapterKind.slugField => remoteSlugFieldAsDict registry rf

/-- The superclass of each adapter class in fields.py (the base maps to
itself). -/
def parentOf : AdapterKind → AdapterKind
  | AdapterKind.field => AdapterKind.field
  | AdapterKind.charField => AdapterKind.field
  | AdapterKind.integerField => AdapterKind.field
  | AdapterKind.floatField => AdapterKind.integerField
  | AdapterKind.decimalField => AdapterKind.integerField
  | AdapterKind.timeField => AdapterKind.field
  | AdapterKind.dateField => AdapterKind.timeField
  | AdapterKind.dateTimeField => AdapterKind.timeField
  | AdapterKind.regexField => AdapterKind.charField
  | AdapterKind.emailField => AdapterKind.charField
  | AdapterKind.fileField => AdapterKind.field
  | AdapterKind.imageField => AdapterKind.fileField
  | AdapterKind.urlField => AdapterKind.charField
  | AdapterKind.booleanField => AdapterKind.field
  | AdapterKind.nullBooleanField => AdapterKind.booleanField
  | AdapterKind.choiceField => AdapterKind.field
  | AdapterKind.modelChoiceField => AdapterKind.choiceField
  | AdapterKind.typedChoiceField => AdapterKind.choiceField
  | AdapterKind.multipleChoiceField => AdapterKind.choiceField
  | AdapterKind.commaSeparatedField => AdapterKind.multipleChoiceField
  | AdapterKind.modelMultipleChoiceField => AdapterKind.multipleChoiceField
  | AdapterKind.typedMultipleChoiceField => AdapterKind.multipleChoiceField
  | AdapterKind.comboField => AdapterKind.field
  | AdapterKind.multiValueField => AdapterKind.field
  | AdapterKind.filePathField => AdapterKind.choiceField
  | AdapterKind.splitDateTimeField => AdapterKind.multiValueField
  | AdapterKind.ipAddressField => AdapterKind.charField
  | AdapterKind.genericIPAddressField => AdapterKind.charField
  | AdapterKind.slugField => AdapterKind.charField

/-- The keys each adapter class adds beyond its superclass output. -/
def extKeysOf : AdapterKind → List String
  | AdapterKind.field => []
  | AdapterKind.charField => ["max_length", "min_length"]
  | AdapterKind.integerField => ["max_value", "min_value"]
  | AdapterKind.floatField => []
  | AdapterKind.decimalField => ["max_digits", "decimal_places"]
  | AdapterKind.timeField => ["input_formats"]
  | AdapterKind.dateField => []
  | AdapterKind.dateTimeField => []
  | AdapterKind.regexField => []
  | AdapterKind.emailField => []
  | AdapterKind.fileField => ["max_length"]
  | AdapterKind.imageField => []
  | AdapterKind.urlField => []
  | AdapterKind.booleanField => []
  | AdapterKind.nullBooleanField => []
  | AdapterKind.choiceField => ["choices"]
  | AdapterKind.modelChoiceField => []
  | AdapterKind.typedChoiceField => ["coerce", "empty_value"]
  | AdapterKind.multipleChoiceField => []
  | AdapterKind.commaSeparatedField => []
  | AdapterKind.modelMultipleChoiceField => []
  | AdapterKind.typedMultipleChoiceField => ["coerce", "empty_value"]
  | AdapterKind.comboField => ["fields"]
  | AdapterKind.multiValueField => ["fields"]
  | AdapterKind.filePathField => ["path", "match", "recursive"]
  | AdapterKind.splitDateTimeField => ["input_date_formats", "input_time_formats"]
  | AdapterKind.ipAddressField => []
  | AdapterKind.genericIPAddressField => []
  | AdapterKind.slugField => []

/-- The eight keys written by the base RemoteField.as_dict. -/
def baseKeys : List String :=
  ["title", "required", "label", "initial", "help_text", "disabled",
   "error_messages", "widget"]

/-- A concrete field instance used by the closed evaluations below. -/
def sampleField : Field where
  className := "CharField"
  required := true
  label := Val.str "Name"
  initial := Val.str "x"
  help_text := Val.str ""
  disabled := false
  error_messages := Val.dict [("required", Val.str "This field is required.")]
  widgetClassName := "TextInput"
  max_length := Val.int 10
  min_length := Val.none
  max_value := Val.none
  min_value := Val.none
  max_digits := Val.none
  decimal_places := Val.none
  input_formats := []
  choices := [("a", "a")]
  coerce := Val.none
  empty_value := Val.str ""
  fields := Val.list []
  path := Val.str "/tmp"
  matchPattern := Val.none
  recursive := Val.bool false
  input_date_formats := Val.none
  input_time_formats := Val.none
  validate_choices := true

/-- A concrete adapter argument used by the closed evaluations below. -/
def sampleRF : RemoteField where
  field := sampleField
  form_initial_data := Val.none
  field_name := Val.str "name"

/-- Concrete settings with three distinct one-element format lists. -/
def sampleSettings : Settings where
  DATE_INPUT_FORMATS := ["DATEFMT"]
  TIME_INPUT_FORMATS := ["TIMEFMT"]
  DATETIME_INPUT_FORMATS := ["DATETIMEFMT"]

/-- A datetime-typed field with no configured input formats: the failing
input for the format-defaulting branch. -/
def c3RF : RemoteField where
  field := { sampleField with
    className := "DateTimeField"
    initial := Val.pydatetime "2020-01-01 00.00.00"
    input_formats := [] }
  form_initial_data := Val.none
  field_name := Val.none

/-- A model-choice adapter argument whose initial is a record with pk 5. -/
def c4ObjRF : RemoteField where
  field := { sampleField with initial := Val.obj (Option.some (Val.int 5)) }
  form_initial_data := Val.none
  field_name := Val.none

/-- A model-choice adapter argument whose initial has no pk attribute. -/
def c4PlainRF : RemoteField where
  field := { sampleField with initial := Val.str "q" }
  form_initial_data := Val.none
  field_name := Val.none

/-- A model-multi-choice adapter argument whose initial is a list mixing a
record with pk 1 and a plain value. -/
def c4ListRF : RemoteField where
  field := { sampleField with
    initial := Val.list [Val.obj (Option.some (Val.int 1)), Val.str "q"] }
  form_initial_data := Val.none
  field_name := Val.none

/-- A comma-separated field whose declared choices are a, b and c. -/
def c5Field : CommaSeparatedField where
  required := true
  choices := [("a", "a"), ("b", "b"), ("c", "c")]
  validate_choices := true

/-- A comma-separated field with validate_choices disabled and one
declared choice. -/
def c6Field : CommaSeparatedField where
  required := true
  choices := [("a", "a")]
  validate_choices := false

/-- A comma-separated adapter argument whose initial token a is already a
declared choice and whose field validates choices. -/
def c7RF : RemoteField where
  field := { sampleField with
    choices := [("a", "a")]
    validate_choices := true
    initial := Val.str "a" }
  form_initial_data := Val.none
  field_name := Val.none

/-- An adapter argument with a supplied but falsy (empty-string) override
and a truthy field initial. -/
def c8RF : RemoteField where
  field := { sampleField with initial := Val.str "z" }
  form_initial_data := Val.str ""
  field_name := Val.none

/-- Overwriting an existing key in place does not change the key list. -/
theorem odKeys_map_overwrite (d : List (String × Val)) (k : String) (v : Val) :
    odKeys (d.map (fun p => if p.1 == k then (k, v) else p)) = odKeys d := by
  induction d with
  | nil => rfl
  | cons p ps ih =>
      have h1 : (if (p.1 == k) = true then (k, v) else p).1 = p.1 := by
        by_cases h : p.1 = k
        · simp [h]
        · simp [h]
      simp only [odKeys, List.map_cons] at ih ⊢
      rw [h1, ih]

/-- Assignment preserves every existing key. -/
theorem mem_odKeys_odSet_of_mem (d : List (String × Val)) (k : String)
    (v : Val) {k' : String} (h : k' ∈ odKeys d) : k' ∈ odKeys (odSet d k v) := by
  unfold odSet
  split
  · rwa [odKeys_map_overwrite]
  · simp only [odKeys, List.map_append]
    exact List.mem_append_left _ h

/-- Assignment makes its own key present. -/
theorem mem_odKeys_odSet_self (d : List (String × Val)) (k : String)
    (v : Val) : k ∈ odKeys (odSet d k v) := by
  unfold odSet
  split
  · rename_i h
    obtain ⟨p, hp, hpk⟩ := List.any_eq_true.mp h
    have hpk' : (p.1 == k) = true := hpk
    have hfp : (fun q : String × Val => if q.1 == k then (k, v) else q) p = (k, v) := by
      simp [hpk']
    simp only [odKeys, List.map_map, List.mem_map, Function.comp]
    exact ⟨p, hp, by rw [show ((if (p.1 == k) = true then (k, v) else p)).1 = (k, v).1 from by rw [if_pos hpk']]⟩
  · simp [odKeys]

/-- dict.update preserves every existing key. -/
theorem mem_odKeys_odUpdate_of_mem (d : List (String × Val))
    (kvs : List (String × Val)) {k' : String} (h : k' ∈ odKeys d) :
    k' ∈ odKeys (odUpdate d kvs) := by
  induction kvs generalizing d with
  | nil => exact h
  | cons p ps ih => exact ih _ (mem_odKeys_odSet_of_mem _ _ _ h)

/-- The base RemoteField.as_dict in normal form: the eight base entries in
insertion order. -/
theorem remoteFieldAsDict_eq (registry : List String) (rf : RemoteField) :
    remoteFieldAsDict registry rf =
      [("title", Val.str rf.field.className),
       ("required", Val.bool rf.field.required),
       ("label", rf.field.label),
       ("initial", pyOr rf.form_initial_data rf.field.initial),
       ("help_text", rf.field.help_text),
       ("disabled", Val.bool rf.field.disabled),
       ("error_messages", rf.field.error_messages),
       ("widget", widgetAsDict (resolveRemoteWidgetClass registry rf.field).1)] := rfl

/-- The key list of the base output is exactly the eight base keys. -/
theorem odKeys_remoteFieldAsDict (registry : List String) (rf : RemoteField) :
    odKeys (remoteFieldAsDict registry rf) = baseKeys := rfl

/-- The initial entry of the base output: the form-supplied initial data,
with Python `or` fallback to the field initial. -/
theorem odGet_remoteFieldAsDict_initial (registry : List String)
    (rf : RemoteField) :
    odGet (remoteFieldAsDict registry rf) "initial" =
      pyOr rf.form_initial_data rf.field.initial := rfl

/-- Format defaulting only assigns keys, so it preserves every key of its
input dictionary. -/
theorem timeDefaultFormats_keys_mono (s : Settings) (init : Val)
    (d : List (String × Val)) {k : String} (h : k ∈ odKeys d) :
    k ∈ odKeys (timeDefaultFormats s init d) := by
  unfold timeDefaultFormats
  repeat' split
  all_goals
    first
    | exact h
    | exact mem_odKeys_odSet_of_mem _ _ _ h

/-- Rendering the initial only assigns keys, so it preserves every key of
its input dictionary. -/
theorem timeRenderInitial_keys_mono (s : Settings)
    (d : List (String × Val)) {k : String} (h : k ∈ odKeys d) :
    k ∈ odKeys (timeRenderInitial s d) := by
  unfold timeRenderInitial
  split
  · exact mem_odKeys_odSet_of_mem _ _ _ (timeDefaultFormats_keys_mono _ _ _ h)
  · exact h

/-- The post-processing of RemoteTimeField.as_dict only assigns keys, so
it preserves every key of its input dictionary. -/
theorem timeFormatsAndInitial_keys_mono (s : Settings)
    (d : List (String × Val)) {k : String} (h : k ∈ odKeys d) :
    k ∈ odKeys (timeFormatsAndInitial s d) := by
  unfold timeFormatsAndInitial
  split
  · split
    · exact timeRenderInitial_keys_mono _ _ (mem_odKeys_odSet_of_mem _ _ _ h)
    · exact timeRenderInitial_keys_mono _ _ h
  · exact h

/-- RemoteCharField keeps every key of the base output. -/
theorem charField_keys_mono (registry : List String) (rf : RemoteField)
    {k : String} (h : k ∈ odKeys (remoteFieldAsDict registry rf)) :
    k ∈ odKeys (remoteCharFieldAsDict registry rf) := by
  simp only [remoteCharFieldAsDict, odUpdate, List.foldl]
  exact mem_odKeys_odSet_of_mem _ _ _ (mem_odKeys_odSet_of_mem _ _ _ h)

/-- RemoteIntegerField keeps every key of the base output. -/
theorem integerField_keys_mono (registry : List String) (rf : RemoteField)
    {k : String} (h : k ∈ odKeys (remoteFieldAsDict registry rf)) :
    k ∈ odKeys (remoteIntegerFieldAsDict registry rf) := by
  simp only [remoteIntegerFieldAsDict, odUpdate, List.foldl]
  exact mem_odKeys_odSet_of_mem _ _ _ (mem_odKeys_odSet_of_mem _ _ _ h)

/-- RemoteDecimalField keeps every key of the RemoteIntegerField output. -/
theorem decimalField_keys_mono (registry : List String) (rf : RemoteField)
    {k : String} (h : k ∈ odKeys (remoteIntegerFieldAsDict registry rf)) :
    k ∈ odKeys (remoteDecimalFieldAsDict registry rf) := by
  simp only [remoteDecimalFieldAsDict, odUpdate, List.foldl]
  exact mem_odKeys_odSet_of_mem _ _ _ (mem_odKeys_odSet_of_mem _ _ _ h)

/-- RemoteTimeField keeps every key of the base output. -/
theorem timeField_keys_mono (s : Settings) (registry : List String)
    (rf : RemoteField) {k : String}
    (h : k ∈ odKeys (remoteFieldAsDict registry rf)) :
    k ∈ odKeys (remoteTimeFieldAsDict s registry rf) := by
  unfold remoteTimeFieldAsDict
  exact timeFormatsAndInitial_keys_mono _ _ (mem_odKeys_odSet_of_mem _ _ _ h)

/-- RemoteFileField keeps every key of the base output. -/
theorem fileField_keys_mono (registry : List String) (rf : RemoteField)
    {k : String} (h : k ∈ odKeys (remoteFieldAsDict registry rf)) :
    k ∈ odKeys (remoteFileFieldAsDict registry rf) := by
  unfold remoteFileFieldAsDict
  exact mem_odKeys_odSet_of_mem _ _ _ h

/-- RemoteChoiceField keeps every key of the base output. -/
theorem choiceField_keys_mono (registry : List String) (rf : RemoteField)
    {k : String} (h : k ∈ odKeys (remoteFieldAsDict registry rf)) :
    k ∈ odKeys (remoteChoiceFieldAsDict registry rf) := by
  unfold remoteChoiceFieldAsDict
  exact mem_odKeys_odSet_of_mem _ _ _ h

/-- RemoteModelChoiceField keeps every key of the RemoteChoiceField
output. -/
theorem modelChoiceField_keys_mono (registry : List String) (rf : RemoteField)
    {k : String} (h : k ∈ odKeys (remoteChoiceFieldAsDict registry rf)) :
    k ∈ odKeys (remoteModelChoiceFieldAsDict registry rf) := by
  unfold remoteModelChoiceFieldAsDict
  exact mem_odKeys_odSet_of_mem _ _ _ h

/-- RemoteTypedChoiceField keeps every key of the RemoteChoiceField
output. -/
theorem typedChoiceField_keys_mono (registry : List String) (rf : RemoteField)
    {k : String} (h : k ∈ odKeys (remoteChoiceFieldAsDict registry rf)) :
    k ∈ odKeys (remoteTypedChoiceFieldAsDict registry rf) := by
  simp only [remoteTypedChoiceFieldAsDict, odUpdate, List.foldl]
  exact mem_odKeys_odSet_of_mem _ _ _ (mem_odKeys_odSet_of_mem _ _ _ h)

/-- RemoteCommaSeparatedField keeps every key of the
RemoteMultipleChoiceField output. -/
theorem commaSeparatedField_keys_mono (registry : List String)
    (rf : RemoteField) {k : String}
    (h : k ∈ odKeys (remoteMultipleChoiceFieldAsDict registry rf)) :
    k ∈ odKeys (remoteCommaSeparatedFieldAsDict registry rf) := by
  unfold remoteCommaSeparatedFieldAsDict commaStep
  generalize remoteMultipleChoiceFieldAsDict registry rf = d at h ⊢
  repeat' split
  all_goals
    first
    | exact h
    | exact mem_odKeys_odSet_of_mem _ _ _ h

/-- RemoteModelMultipleChoiceField keeps every key of the
RemoteMultipleChoiceField output. -/
theorem modelMultipleChoiceField_keys_mono (registry : List String)
    (rf : RemoteField) {k : String}
    (h : k ∈ odKeys (remoteMultipleChoiceFieldAsDict registry rf)) :
    k ∈ odKeys (remoteModelMultipleChoiceFieldAsDict registry rf) := by
  unfold remoteModelMultipleChoiceFieldAsDict modelMultipleInitialStep
  generalize remoteMultipleChoiceFieldAsDict registry rf = d at h ⊢
  repeat' split
  all_goals exact mem_odKeys_odSet_of_mem _ _ _ h

/-- RemoteTypedMultipleChoiceField keeps every key of the
RemoteMultipleChoiceField output. -/
theorem typedMultipleChoiceField_keys_mono (registry : List String)
    (rf : RemoteField) {k : String}
    (h : k ∈ odKeys (remoteMultipleChoiceFieldAsDict registry rf)) :
    k ∈ odKeys (remoteTypedMultipleChoiceFieldAsDict registry rf) := by
  simp only [remoteTypedMultipleChoiceFieldAsDict, odUpdate, List.foldl]
  exact mem_odKeys_odSet_of_mem _ _ _ (mem_odKeys_odSet_of_mem _ _ _ h)

/-- RemoteComboField keeps every key of the base output. -/
theorem comboField_keys_mono (registry : List String) (rf : RemoteField)
    {k : String} (h : k ∈ odKeys (remoteFieldAsDict registry rf)) :
    k ∈ odKeys (remoteComboFieldAsDict registry rf) := by
  unfold remoteComboFieldAsDict
  exact mem_odKeys_odSet_of_mem _ _ _ h

/-- RemoteMultiValueField keeps every key of the base output. -/
theorem multiValueField_keys_mono (registry : List String) (rf : RemoteField)
    {k : String} (h : k ∈ odKeys (remoteFieldAsDict registry rf)) :
    k ∈ odKeys (remoteMultiValueFieldAsDict registry rf) := by
  unfold remoteMultiValueFieldAsDict
  exact mem_odKeys_odSet_of_mem _ _ _ h

/-- RemoteFilePathField keeps every key of the RemoteChoiceField output. -/
theorem filePathField_keys_mono (registry : List String) (rf : RemoteField)
    {k : String} (h : k ∈ odKeys (remoteChoiceFieldAsDict registry rf)) :
    k ∈ odKeys (remoteFilePathFieldAsDict registry rf) := by
  simp only [remoteFilePathFieldAsDict, odUpdate, List.foldl]
  exact mem_odKeys_odSet_of_mem _ _ _
    (mem_odKeys_odSet_of_mem _ _ _ (mem_odKeys_odSet_of_mem _ _ _ h))

/-- RemoteSplitDateTimeField keeps every key of the RemoteMultiValueField
output. -/
theorem splitDateTimeField_keys_mono (registry : List String)
    (rf : RemoteField) {k : String}
    (h : k ∈ odKeys (remoteMultiValueFieldAsDict registry rf)) :
    k ∈ odKeys (remoteSplitDateTimeFieldAsDict registry rf) := by
  simp only [remoteSplitDateTimeFieldAsDict, odUpdate, List.foldl]
  exact mem_odKeys_odSet_of_mem _ _ _ (mem_odKeys_odSet_of_mem _ _ _ h)

/-- Every adapter class keeps every key of its superclass output. -/
theorem asDict_parent_keys_mono (a : AdapterKind) (s : Settings)
    (registry : List String) (rf : RemoteField) {k : String}
    (h : k ∈ odKeys (asDictOf (parentOf a) s registry rf)) :
    k ∈ odKeys (asDictOf a s registry rf) := by
  cases a
  case field => exact h
  case charField => exact charField_keys_mono registry rf h
  case integerField => exact integerField_keys_mono registry rf h
  case floatField => exact h
  case decimalField => exact decimalField_keys_mono registry rf h
  case timeField => exact timeField_keys_mono s registry rf h
  case dateField => exact h
  case dateTimeField => exact h
  case regexField => exact h
  case emailField => exact h
  case fileField => exact fileField_keys_mono registry rf h
  case imageField => exact h
  case urlField => exact h
  case booleanField => exact h
  case nullBooleanField => exact h
  case choiceField => exact choiceField_keys_mono registry rf h
  case modelChoiceField => exact modelChoiceField_keys_mono registry rf h
  case typedChoiceField => exact typedChoiceField_keys_mono registry rf h
  case multipleChoiceField => exact h
  case commaSeparatedField => exact commaSeparatedField_keys_mono registry rf h
  case modelMultipleChoiceField =>
    exact modelMultipleChoiceField_keys_mono registry rf h
  case typedMultipleChoiceField =>
    exact typedMultipleChoiceField_keys_mono registry rf h
  case comboField => exact comboField_keys_mono registry rf h
  case multiValueField => exact multiValueField_keys_mono registry rf h
  case filePathField => exact filePathField_keys_mono registry rf h
  case splitDateTimeField => exact splitDateTimeField_keys_mono registry rf h
  case ipAddressField => exact h
  case genericIPAddressField => exact h
  case slugField => exact h

/-- Every adapter output contains the eight base keys. -/
theorem asDict_base_keys (a : AdapterKind) (s : Settings)
    (registry : List String) (rf : RemoteField) {k : String}
    (h : k ∈ baseKeys) : k ∈ odKeys (asDictOf a s registry rf) := by
  have hbase : k ∈ odKeys (asDictOf AdapterKind.field s registry rf) := by
    rw [show asDictOf AdapterKind.field s registry rf =
          remoteFieldAsDict registry rf from rfl, odKeys_remoteFieldAsDict]
    exact h
  have up1 : ∀ b : AdapterKind,
      k ∈ odKeys (asDictOf (parentOf b) s registry rf) →
      k ∈ odKeys (asDictOf b s registry rf) :=
    fun b hb => asDict_parent_keys_mono b s registry rf hb
  cases a
  case field => exact hbase
  case charField => exact up1 AdapterKind.charField hbase
  case integerField => exact up1 AdapterKind.integerField hbase
  case floatField =>
    exact up1 AdapterKind.floatField (up1 AdapterKind.integerField hbase)
  case decimalField =>
    exact up1 AdapterKind.decimalField (up1 AdapterKind.integerField hbase)
  case timeField => exact up1 AdapterKind.timeField hbase
  case dateField =>
    exact up1 AdapterKind.dateField (up1 AdapterKind.timeField hbase)
  case dateTimeField =>
    exact up1 AdapterKind.dateTimeField (up1 AdapterKind.timeField hbase)
  case regexField =>
    exact up1 AdapterKind.regexField (up1 AdapterKind.charField hbase)
  case emailField =>
    exact up1 AdapterKind.emailField (up1 AdapterKind.charField hbase)
  case fileField => exact up1 AdapterKind.fileField hbase
  case imageField =>
    exact up1 AdapterKind.imageField (up1 AdapterKind.fileField hbase)
  case urlField =>
    exact up1 AdapterKind.urlField (up1 AdapterKind.charField hbase)
  case booleanField => exact up1 AdapterKind.booleanField hbase
  case nullBooleanField =>
    exact up1 AdapterKind.nullBooleanField (up1 AdapterKind.booleanField hbase)
  case choiceField => exact up1 AdapterKind.choiceField hbase
  case modelChoiceField =>
    exact up1 AdapterKind.modelChoiceField (up1 AdapterKind.choiceField hbase)
  case typedChoiceField =>
    exact up1 AdapterKind.typedChoiceField (up1 AdapterKind.choiceField hbase)
  case multipleChoiceField =>
    exact up1 AdapterKind.multipleChoiceField (up1 AdapterKind.choiceField hbase)
  case commaSeparatedField =>
    exact up1 AdapterKind.commaSeparatedField
      (up1 AdapterKind.multipleChoiceField (up1 AdapterKind.choiceField hbase))
  case modelMultipleChoiceField =>
    exact up1 AdapterKind.modelMultipleChoiceField
      (up1 AdapterKind.multipleChoiceField (up1 AdapterKind.choiceField hbase))
  case typedMultipleChoiceField =>
    exact up1 AdapterKind.typedMultipleChoiceField
      (up1 AdapterKind.multipleChoiceField (up1 AdapterKind.choiceField hbase))
  case comboField => exact up1 AdapterKind.comboField hbase
  case multiValueField => exact up1 AdapterKind.multiValueField hbase
  case filePathField =>
    exact up1 AdapterKind.filePathField (up1 AdapterKind.choiceField hbase)
  case splitDateTimeField =>
    exact up1 AdapterKind.splitDateTimeField
      (up1 AdapterKind.multiValueField hbase)
  case ipAddressField =>
    exact up1 AdapterKind.ipAddressField (up1 AdapterKind.charField hbase)
  case genericIPAddressField =>
    exact up1 AdapterKind.genericIPAddressField (up1 AdapterKind.charField hbase)
  case slugField =>
    exact up1 AdapterKind.slugField (up1 AdapterKind.charField hbase)

/-- Every adapter output contains its own extension keys. -/
theorem asDict_ext_keys (a : AdapterKind) (s : Settings)
    (registry : List String) (rf : RemoteField) {k : String}
    (h : k ∈ extKeysOf a) : k ∈ odKeys (asDictOf a s registry rf) := by
  cases a <;> simp only [asDictOf, extKeysOf] at h ⊢ <;>
    try exact absurd h (List.not_mem_nil k)
  case charField =>
    simp only [remoteCharFieldAsDict, odUpdate, List.foldl]
    rcases List.mem_cons.mp h with h1 | h1
    · subst h1
      exact mem_odKeys_odSet_of_mem _ _ _ (mem_odKeys_odSet_self _ _ _)
    · rcases List.mem_cons.mp h1 with h2 | h2
      · subst h2; exact mem_odKeys_odSet_self _ _ _
      · exact absurd h2 (List.not_mem_nil k)
  case integerField =>
    simp only [remoteIntegerFieldAsDict, odUpdate, List.foldl]
    rcases List.mem_cons.mp h with h1 | h1
    · subst h1
      exact mem_odKeys_odSet_of_mem _ _ _ (mem_odKeys_odSet_self _ _ _)
    · rcases List.mem_cons.mp h1 with h2 | h2
      · subst h2; exact mem_odKeys_odSet_self _ _ _
      · exact absurd h2 (List.not_mem_nil k)
  case decimalField =>
    simp only [remoteDecimalFieldAsDict, odUpdate, List.foldl]
    rcases List.mem_cons.mp h with h1 | h1
    · subst h1
      exact mem_odKeys_odSet_of_mem _ _ _ (mem_odKeys_odSet_self _ _ _)
    · rcases List.mem_cons.mp h1 with h2 | h2
      · subst h2; exact mem_odKeys_odSet_self _ _ _
      · exact absurd h2 (List.not_mem_nil k)
  case timeField =>
    simp only [remoteTimeFieldAsDict]
    rcases List.mem_cons.mp h with h1 | h1
    · subst h1
      exact timeFormatsAndInitial_keys_mono _ _ (mem_odKeys_odSet_self _ _ _)
    · exact absurd h1 (List.not_mem_nil k)
  case fileField =>
    simp only [remoteFileFieldAsDict]
    rcases List.mem_cons.mp h with h1 | h1
    · subst h1; exact mem_odKeys_odSet_self _ _ _
    · exact absurd h1 (List.not_mem_nil k)
  case choiceField =>
    simp only [remoteChoiceFieldAsDict]
    rcases List.mem_cons.mp h with h1 | h1
    · subst h1; exact mem_odKeys_odSet_self _ _ _
    · exact absurd h1 (List.not_mem_nil k)
  case typedChoiceField =>
    simp only [remoteTypedChoiceFieldAsDict, odUpdate, List.foldl]
    rcases List.mem_cons.mp h with h1 | h1
    · subst h1
      exact mem_odKeys_odSet_of_mem _ _ _ (mem_odKeys_odSet_self _ _ _)
    · rcases List.mem_cons.mp h1 with h2 | h2
      · subst h2; exact mem_odKeys_odSet_self _ _ _
      · exact absurd h2 (List.not_mem_nil k)
  case typedMultipleChoiceField =>
    simp only [remoteTypedMultipleChoiceFieldAsDict, odUpdate, List.foldl]
    rcases List.mem_cons.mp h with h1 | h1
    · subst h1
      exact mem_odKeys_odSet_of_mem _ _ _ (mem_odKeys_odSet_self _ _ _)
    · rcases List.mem_cons.mp h1 with h2 | h2
      · subst h2; exact mem_odKeys_odSet_self _ _ _
      · exact absurd h2 (List.not_mem_nil k)
  case comboField =>
    simp only [remoteComboFieldAsDict]
    rcases List.mem_cons.mp h with h1 | h1
    · subst h1; exact mem_odKeys_odSet_self _ _ _
    · exact absurd h1 (List.not_mem_nil k)
  case multiValueField =>
    simp only [remoteMultiValueFieldAsDict]
    rcases List.mem_cons.mp h with h1 | h1
    · subst h1; exact mem_odKeys_odSet_self _ _ _
    · exact absurd h1 (List.not_mem_nil k)
  case filePathField =>
    simp only [remoteFilePathFieldAsDict, odUpdate, List.foldl]
    rcases List.mem_cons.mp h with h1 | h1
    · subst h1
      exact mem_odKeys_odSet_of_mem _ _ _
        (mem_odKeys_odSet_of_mem _ _ _ (mem_odKeys_odSet_self _ _ _))
    · rcases List.mem_cons.mp h1 with h2 | h2
      · subst h2
        exact mem_odKeys_odSet_of_mem _ _ _ (mem_odKeys_odSet_self _ _ _)
      · rcases List.mem_cons.mp h2 with h3 | h3
        · subst h3; exact mem_odKeys_odSet_self _ _ _
        · exact absurd h3 (List.not_mem_nil k)
  case splitDateTimeField =>
    simp only [remoteSplitDateTimeFieldAsDict, odUpdate, List.foldl]
    rcases List.mem_cons.mp h with h1 | h1
    · subst h1
      exact mem_odKeys_odSet_of_mem _ _ _ (mem_odKeys_odSet_self _ _ _)
    · rcases List.mem_cons.mp h1 with h2 | h2
      · subst h2; exact mem_odKeys_odSet_self _ _ _
      · exact absurd h2 (List.not_mem_nil k)

/-- A non-empty string is truthy. -/
theorem truthy_str_of_ne {s0 : String} (h : s0 ≠ "") :
    truthy (Val.str s0) = true := by
  have hne : ¬ s0.isEmpty := fun he => h ((String.isEmpty_iff s0).mp he)
  simp [truthy, hne]

/-- The choices entry of the choice-field output is the serialization of
the declared choice pairs. -/
theorem odGet_choiceField_choices (registry : List String) (rf : RemoteField) :
    odGet (remoteChoiceFieldAsDict registry rf) "choices" =
      serializeChoicePairs rf.field.choices := rfl

/-- The initial entry of the choice-field output is unchanged from the
base output. -/
theorem odGet_choiceField_initial (registry : List String) (rf : RemoteField) :
    odGet (remoteChoiceFieldAsDict registry rf) "initial" =
      pyOr rf.form_initial_data rf.field.initial := rfl

/-- On a truthy string initial entry, the comma-separated conditional
rewrites the choices entry with the token loop and changes nothing
else. -/
theorem commaStep_str (validate : Bool) (declared : List (String × String))
    (d : List (String × Val)) (s0 : String)
    (hinit : odGet d "initial" = Val.str s0) (hne : s0 ≠ "") :
    commaStep validate declared d =
      odSet d "choices" (serializeChoicePairs
        (commaChoicePairs validate declared (pySplitComma s0))) := by
  unfold commaStep
  rw [hinit, truthy_str_of_ne hne]
  rfl

/-- A new pair appended by one prepare_value step always has a non-empty
value. -/
theorem prepareValueStep_mem (validate : Bool)
    (cs : List (String × String)) (v : String) {p : String × String}
    (hp : p ∈ prepareValueStep validate cs v) : p ∈ cs ∨ p.1 ≠ "" := by
  unfold prepareValueStep at hp
  split at hp
  · rename_i hcond
    rcases List.mem_append.mp hp with h1 | h1
    · exact Or.inl h1
    · right
      have hpe : p = (v, v ++ " (Not valid)") := List.mem_singleton.mp h1
      subst hpe
      intro hveq
      have hv : v = "" := hveq
      subst hv
      simp only [Bool.and_eq_true] at hcond
      exact absurd hcond.1.2 (by decide)
  · exact Or.inl hp

/-- With validate_choices disabled, the prepare_value loop never appends
a choice. -/
theorem prepareValueChoices_validate_false (f : CommaSeparatedField)
    (hf : f.validate_choices = false) (tokens : List String) :
    prepareValueChoices f tokens = f.choices := by
  unfold prepareValueChoices
  rw [hf]
  have hgen : ∀ (ts : List String) (cs : List (String × String)),
      ts.foldl (prepareValueStep false) cs = cs := by
    intro ts
    induction ts with
    | nil => intro cs; rfl
    | cons t ts ih =>
        intro cs
        rw [List.foldl_cons,
          show prepareValueStep false cs t = cs from by simp [prepareValueStep]]
        exact ih cs
  exact hgen tokens f.choices

/-- The token loop of the comma-separated adapter only appends, so it
keeps every pair of the starting list. -/
theorem commaFold_mem_of_mem (validate : Bool) :
    ∀ (ts : List String) (cs : List (String × String)) {p : String × String},
      p ∈ cs → p ∈ ts.foldl (commaOptionStep validate) cs := by
  intro ts
  induction ts with
  | nil => intro cs p hp; exact hp
  | cons t ts ih =>
      intro cs p hp
      rw [List.foldl_cons]
      apply ih
      unfold commaOptionStep
      split
      · exact hp
      · exact List.mem_append_left _ hp

/-- After the token loop, the synthesized option of every token is in the
choices list. -/
theorem commaFold_token_mem (validate : Bool) :
    ∀ (ts : List String) (cs : List (String × String)) {t : String},
      t ∈ ts →
      (t, commaDisplay validate t) ∈ ts.foldl (commaOptionStep validate) cs := by
  intro ts
  induction ts with
  | nil => intro cs t ht; exact absurd ht (List.not_mem_nil t)
  | cons t0 ts ih =>
      intro cs t ht
      rw [List.foldl_cons]
      rcases List.mem_cons.mp ht with h1 | h1
      · subst h1
        apply commaFold_mem_of_mem
        unfold commaOptionStep
        split
        · rename_i hc
          simpa using hc
        · exact List.mem_append_right _ (List.mem_singleton.mpr rfl)
      · exact ih _ h1

/-- The token loop appends a pair only when it is absent, so it preserves
freedom from duplicates. -/
theorem commaFold_nodup (validate : Bool) :
    ∀ (ts : List String) (cs : List (String × String)), cs.Nodup →
      (ts.foldl (commaOptionStep validate) cs).Nodup := by
  intro ts
  induction ts with
  | nil => intro cs h; exact h
  | cons t ts ih =>
      intro cs h
      rw [List.foldl_cons]
      apply ih
      unfold commaOptionStep
      split
      · exact h
      · rename_i hc
        have hni : (t, commaDisplay validate t) ∉ cs := by
          simpa using hc
        simp [List.nodup_append, h, hni]

/-- Every pair in the loop result is either from the starting list or the
synthesized option of some token. -/
theorem commaFold_provenance (validate : Bool) :
    ∀ (ts : List String) (cs : List (String × String)) {p : String × String},
      p ∈ ts.foldl (commaOptionStep validate) cs →
      p ∈ cs ∨ ∃ t ∈ ts, p = (t, commaDisplay validate t) := by
  intro ts
  induction ts with
  | nil => intro cs p hp; exact Or.inl hp
  | cons t ts ih =>
      intro cs p hp
      rw [List.foldl_cons] at hp
      rcases ih _ hp with h1 | h1
      · unfold commaOptionStep at h1
        split at h1
        · exact Or.inl h1
        · rcases List.mem_append.mp h1 with h2 | h2
          · exact Or.inl h2
          · exact Or.inr ⟨t, List.mem_cons_self t ts,
              List.mem_singleton.mp h2⟩
      · rcases h1 with ⟨t1, ht1, hp1⟩
        exact Or.inr ⟨t1, List.mem_cons_of_mem t ht1, hp1⟩

/-- C1: for every field adapter, the output mapping contains the eight
base keys (title, required, label, initial, help_text, disabled,
error_messages, widget) plus the extension keys of its category, and
every subtype adapter output contains every key of its parent adapter
output — keys are only added or mutated along the inheritance chain,
never removed. -/
theorem C1_adapter_output_keys (a : AdapterKind) (s : Settings)
    (registry : List String) (rf : RemoteField) :
    (∀ k, k ∈ baseKeys → k ∈ odKeys (asDictOf a s registry rf)) ∧
    (∀ k, k ∈ extKeysOf a → k ∈ odKeys (asDictOf a s registry rf)) ∧
    (∀ k, k ∈ odKeys (asDictOf (parentOf a) s registry rf) →
       k ∈ odKeys (asDictOf a s registry rf)) :=
  ⟨fun _ h => asDict_base_keys a s registry rf h,
   fun _ h => asDict_ext_keys a s registry rf h,
   fun _ h => asDict_parent_keys_mono a s registry rf h⟩

/-- Witness for C1 at the char-field adapter on concrete inputs. -/
theorem C1_adapter_output_keys_witness :
    "title" ∈ odKeys (asDictOf AdapterKind.charField sampleSettings [] sampleRF) ∧
    "max_length" ∈ odKeys (asDictOf AdapterKind.charField sampleSettings [] sampleRF) ∧
    "title" ∈ odKeys (asDictOf AdapterKind.field sampleSettings [] sampleRF) :=
  have h1 : "title" ∈ odKeys (asDictOf AdapterKind.field sampleSettings [] sampleRF) :=
    (C1_adapter_output_keys AdapterKind.field sampleSettings [] sampleRF).1
      "title" (by decide)
  ⟨(C1_adapter_output_keys AdapterKind.charField sampleSettings [] sampleRF).2.2
     "title" h1,
   (C1_adapter_output_keys AdapterKind.charField sampleSettings [] sampleRF).2.1
     "max_length" (by decide),
   h1⟩

/-- C2: when the widget type of a field has no matching remote widget
adapter class in the widgets module, resolution does not raise: the
default adapter class is returned, a warning carrying the attempted
adapter name and the error text is logged, and serialization still
produces a dictionary with a widget entry built from the default
adapter. -/
theorem C2_widget_resolution_fallback (registry : List String)
    (rf : RemoteField) (h : remoteWidgetClassName rf.field ∉ registry) :
    resolveRemoteWidgetClass registry rf.field =
      (DEFAULT_REMOTE_WIDGET_CLASS_NAME,
       Option.some
         { attemptedName := remoteWidgetClassName rf.field,
           errorText := getattrErrorText (remoteWidgetClassName rf.field) }) ∧
    odGet (remoteFieldAsDict registry rf) "widget" =
      widgetAsDict DEFAULT_REMOTE_WIDGET_CLASS_NAME ∧
    "widget" ∈ odKeys (remoteFieldAsDict registry rf) := by
  have hres : resolveRemoteWidgetClass registry rf.field =
      (DEFAULT_REMOTE_WIDGET_CLASS_NAME,
       Option.some
         { attemptedName := remoteWidgetClassName rf.field,
           errorText := getattrErrorText (remoteWidgetClassName rf.field) }) := by
    unfold resolveRemoteWidgetClass getattrWidgets
    rw [if_neg h]
  refine ⟨hres, ?_, ?_⟩
  · rw [show odGet (remoteFieldAsDict registry rf) "widget" =
        widgetAsDict (resolveRemoteWidgetClass registry rf.field).1 from rfl,
      hres]
  · rw [odKeys_remoteFieldAsDict]
    decide

/-- Witness for C2: the sample field wraps a TextInput widget and the
registry is empty, so resolution falls back to the default. -/
theorem C2_widget_resolution_fallback_witness :
    resolveRemoteWidgetClass [] sampleRF.field =
      (DEFAULT_REMOTE_WIDGET_CLASS_NAME,
       Option.some
         { attemptedName := remoteWidgetClassName sampleRF.field,
           errorText := getattrErrorText (remoteWidgetClassName sampleRF.field) }) ∧
    odGet (remoteFieldAsDict [] sampleRF) "widget" =
      widgetAsDict DEFAULT_REMOTE_WIDGET_CLASS_NAME ∧
    "widget" ∈ odKeys (remoteFieldAsDict [] sampleRF) :=
  C2_widget_resolution_fallback [] sampleRF (by simp)

/-- C3: evaluation of the code at the failing input. For a datetime
initial value with empty input_formats, the adapter substitutes the DATE
default list and renders the initial with its first entry, because the
isinstance check against datetime.date matches datetime instances first;
the DATETIME default list, although distinct and configured, is not used
(the datetime branch of the chain is unreachable). The claim (and the
spec) say the datetime default list is used for combined datetime
values. -/
theorem C3_datetime_initial_gets_date_formats :
    odGet (remoteTimeFieldAsDict sampleSettings [] c3RF) "input_formats" =
      Val.list [Val.str "DATEFMT"] ∧
    odGet (remoteTimeFieldAsDict sampleSettings [] c3RF) "initial" =
      Val.str (strftime (Val.pydatetime "2020-01-01 00.00.00") "DATEFMT") ∧
    isinstDatetime (Val.pydatetime "2020-01-01 00.00.00") = true ∧
    sampleSettings.DATE_INPUT_FORMATS = ["DATEFMT"] ∧
    sampleSettings.DATETIME_INPUT_FORMATS = ["DATETIMEFMT"] ∧
    "DATEFMT" ≠ "DATETIMEFMT" :=
  ⟨rfl, rfl, rfl, rfl, rfl, by decide⟩

/-- C4: a model-backed choice field serializes a pk-bearing initial as
its pk, passes a pk-less initial through unchanged, and the multi-valued
variant applies the same replacement element-wise when the initial is a
list. -/
theorem C4_model_choice_pk_extraction (registry : List String)
    (rf : RemoteField) :
    (odGet (remoteModelChoiceFieldAsDict registry rf) "initial" =
       getattrPkDefault (pyOr rf.form_initial_data rf.field.initial)) ∧
    (∀ p, getattrPkDefault (Val.obj (Option.some p)) = p) ∧
    (∀ v, (∀ p, v ≠ Val.obj (Option.some p)) → getattrPkDefault v = v) ∧
    (∀ xs, pyOr rf.form_initial_data rf.field.initial = Val.list xs →
       odGet (remoteModelMultipleChoiceFieldAsDict registry rf) "initial" =
         Val.list (xs.map getattrPkDefault)) := by
  refine ⟨rfl, fun p => rfl, ?_, ?_⟩
  · intro v hv
    cases v
    case obj pk =>
      cases pk
      case none => rfl
      case some p => exact absurd rfl (hv p)
    all_goals rfl
  · intro xs hxs
    show odGet (modelMultipleInitialStep
      (remoteMultipleChoiceFieldAsDict registry rf)) "initial" = _
    unfold modelMultipleInitialStep
    rw [show odGet (remoteMultipleChoiceFieldAsDict registry rf) "initial" =
          pyOr rf.form_initial_data rf.field.initial from rfl, hxs]
    rfl

/-- Witness for C4 on concrete model-choice inputs. -/
theorem C4_model_choice_pk_extraction_witness :
    odGet (remoteModelChoiceFieldAsDict [] c4ObjRF) "initial" =
      getattrPkDefault (pyOr c4ObjRF.form_initial_data c4ObjRF.field.initial) ∧
    getattrPkDefault (Val.obj (Option.some (Val.int 5))) = Val.int 5 ∧
    getattrPkDefault (Val.str "q") = Val.str "q" ∧
    odGet (remoteModelMultipleChoiceFieldAsDict [] c4ListRF) "initial" =
      Val.list ([Val.obj (Option.some (Val.int 1)), Val.str "q"].map
        getattrPkDefault) :=
  ⟨(C4_model_choice_pk_extraction [] c4ObjRF).1,
   (C4_model_choice_pk_extraction [] c4ObjRF).2.1 (Val.int 5),
   (C4_model_choice_pk_extraction [] c4PlainRF).2.2.1 (Val.str "q")
     (fun _ h => Val.noConfusion h),
   (C4_model_choice_pk_extraction [] c4ListRF).2.2.2
     [Val.obj (Option.some (Val.int 1)), Val.str "q"] rfl⟩

/-- C5: with a, b and c declared as valid choices, prepare_value splits
the comma-joined input into the three tokens and clean of that list
rejoins them into the original string. -/
theorem C5_comma_round_trip :
    (prepare_value c5Field (Val.str "a,b,c")).2 =
      Val.list [Val.str "a", Val.str "b", Val.str "c"] ∧
    clean (prepare_value c5Field (Val.str "a,b,c")).1 ["a", "b", "c"] =
      Except.ok "a,b,c" :=
  ⟨rfl, rfl⟩

/-- C6 counterexample: with validate_choices disabled and input x,y where
neither token is declared, prepare_value registers nothing at all — the
choice list is unchanged and contains no entry for x or y — while
valid_value is still true for both tokens. The claim asserts that two
new choices labeled x and y are registered. -/
theorem C6_validate_false_counterexample :
    c6Field.validate_choices = false ∧
    (prepare_value c6Field (Val.str "x,y")).1.choices = [("a", "a")] ∧
    ("x", "x") ∉ (prepare_value c6Field (Val.str "x,y")).1.choices ∧
    ("y", "y") ∉ (prepare_value c6Field (Val.str "x,y")).1.choices ∧
    valid_value c6Field "x" = true ∧
    valid_value c6Field "y" = true :=
  ⟨rfl, rfl, by decide, by decide, rfl, rfl⟩

/-- C6 (amended): with validate_choices disabled, prepare_value registers
no new choices — the choice list is returned unchanged — and valid_value
returns true for every value. -/
theorem C6_amended_no_registration (f : CommaSeparatedField) (v : Val)
    (hf : f.validate_choices = false) :
    (prepare_value f v).1.choices = f.choices ∧
    (∀ t : String, valid_value f t = true) := by
  refine ⟨?_, fun t => by simp [valid_value, hf]⟩
  cases v
  all_goals
    first
    | rfl
    | exact prepareValueChoices_validate_false f hf _

/-- Witness for the amended C6 at the concrete field and input. -/
theorem C6_amended_no_registration_witness :
    (prepare_value c6Field (Val.str "x,y")).1.choices = c6Field.choices ∧
    valid_value c6Field "x" = true :=
  ⟨(C6_amended_no_registration c6Field (Val.str "x,y") rfl).1,
   (C6_amended_no_registration c6Field (Val.str "x,y") rfl).2 "x"⟩

/-- C7 counterexample: serializing a comma-separated field whose initial
token a is already among the declared choices, with choice validation
enabled, still appends a new Not-valid-labeled entry for a — the claim
asserts that tokens already present among the declared choices produce
no new entry. -/
theorem C7_declared_token_counterexample :
    c7RF.field.choices = [("a", "a")] ∧
    pyOr c7RF.form_initial_data c7RF.field.initial = Val.str "a" ∧
    odGet (remoteCommaSeparatedFieldAsDict [] c7RF) "choices" =
      serializeChoicePairs [("a", "a"), ("a", "a (Not valid)")] :=
  ⟨rfl, rfl, rfl⟩

/-- C7 (amended): when serializing a comma-separated field with a
non-empty string initial, the initial is split on the comma and for each
token an option is synthesized, labeled with the Not-valid suffix when
choice validation is enabled and with the raw token otherwise; the
option is appended only when an identical entry (same value and same
display) is not already present in the accumulating choices list, so no
duplicate entries are introduced and every output entry is a declared
choice or the synthesized option of some token; a declared token with
validation enabled still gains a Not-valid-labeled entry unless that
exact pair already exists. -/
theorem C7_amended_comma_choices (registry : List String) (rf : RemoteField)
    (s0 : String)
    (h : pyOr rf.form_initial_data rf.field.initial = Val.str s0)
    (hne : s0 ≠ "") :
    odGet (remoteCommaSeparatedFieldAsDict registry rf) "choices" =
      serializeChoicePairs (commaChoicePairs rf.field.validate_choices
        rf.field.choices (pySplitComma s0)) ∧
    (∀ p, p ∈ rf.field.choices →
       p ∈ commaChoicePairs rf.field.validate_choices rf.field.choices
         (pySplitComma s0)) ∧
    (∀ t, t ∈ pySplitComma s0 →
       (t, commaDisplay rf.field.validate_choices t) ∈
         commaChoicePairs rf.field.validate_choices rf.field.choices
           (pySplitComma s0)) ∧
    (rf.field.choices.Nodup →
       (commaChoicePairs rf.field.validate_choices rf.field.choices
         (pySplitComma s0)).Nodup) ∧
    (∀ p, p ∈ commaChoicePairs rf.field.validate_choices rf.field.choices
        (pySplitComma s0) →
       p ∈ rf.field.choices ∨ ∃ t ∈ pySplitComma s0,
         p = (t, commaDisplay rf.field.validate_choices t)) := by
  have hinit : odGet (remoteMultipleChoiceFieldAsDict registry rf) "initial" =
      Val.str s0 := by
    rw [show odGet (remoteMultipleChoiceFieldAsDict registry rf) "initial" =
          pyOr rf.form_initial_data rf.field.initial from rfl]
    exact h
  have hstep : remoteCommaSeparatedFieldAsDict registry rf =
      odSet (remoteMultipleChoiceFieldAsDict registry rf) "choices"
        (serializeChoicePairs (commaChoicePairs rf.field.validate_choices
          rf.field.choices (pySplitComma s0))) :=
    commaStep_str _ _ _ _ hinit hne
  refine ⟨?_, ?_, ?_, ?_, ?_⟩
  · rw [hstep]
    rfl
  · intro p hp
    exact commaFold_mem_of_mem _ _ _ hp
  · intro t ht
    exact commaFold_token_mem _ _ _ ht
  · intro hnd
    exact commaFold_nodup _ _ _ hnd
  · intro p hp
    exact commaFold_provenance _ _ _ hp

/-- Witness for the amended C7 at the concrete comma-separated field. -/
theorem C7_amended_comma_choices_witness :
    odGet (remoteCommaSeparatedFieldAsDict [] c7RF) "choices" =
      serializeChoicePairs (commaChoicePairs c7RF.field.validate_choices
        c7RF.field.choices (pySplitComma "a")) ∧
    ("a", commaDisplay c7RF.field.validate_choices "a") ∈
      commaChoicePairs c7RF.field.validate_choices c7RF.field.choices
        (pySplitComma "a") :=
  ⟨(C7_amended_comma_choices [] c7RF "a" rfl (by decide)).1,
   (C7_amended_comma_choices [] c7RF "a" rfl (by decide)).2.2.1 "a" (by decide)⟩

/-- C8 counterexample: with a supplied empty-string override (a falsy
value) and field initial z, the serialized initial is z, not the
supplied override — the Python or-expression treats every falsy override
as absent. -/
theorem C8_falsy_override_counterexample :
    c8RF.form_initial_data = Val.str "" ∧
    odGet (remoteFieldAsDict [] c8RF) "initial" = Val.str "z" ∧
    Val.str "z" ≠ Val.str "" :=
  ⟨rfl, rfl, fun h => absurd (Val.str.inj h) (by decide)⟩

/-- C8 (amended): the initial entry of every adapter output holds the
form-supplied override when the override is truthy; when the override is
absent or falsy (None, empty string, zero, False, empty containers), the
field own initial is used. -/
theorem C8_amended_initial_or (registry : List String) (rf : RemoteField) :
    odGet (remoteFieldAsDict registry rf) "initial" =
      (if truthy rf.form_initial_data then rf.form_initial_data
       else rf.field.initial) := rfl

/-- C9: whenever the standard multi-choice clean accepts the input and
produces a list, the comma-separated clean returns that list joined with
commas into a single string. -/
theorem C9_clean_joins (f : CommaSeparatedField) (value l : List String)
    (h : multipleChoiceClean f value = Except.ok l) :
    clean f value = Except.ok (String.intercalate "," l) := by
  unfold clean
  rw [h]

/-- Witness for C9 at a concrete field and input. -/
theorem C9_clean_joins_witness :
    multipleChoiceClean c5Field ["a", "b"] = Except.ok ["a", "b"] ∧
    clean c5Field ["a", "b"] = Except.ok (String.intercalate "," ["a", "b"]) :=
  ⟨rfl, C9_clean_joins c5Field ["a", "b"] ["a", "b"] rfl⟩

/-- C10: prepare_value keeps empty tokens in the returned list (the
returned list is exactly the comma split, empties included), but never
registers an empty token as a new choice: every choice pair not already
declared has a non-empty value. -/
theorem C10_empty_tokens_not_registered (f : CommaSeparatedField)
    (s0 : String) :
    (prepare_value f (Val.str s0)).2 =
      Val.list ((pySplitComma s0).map Val.str) ∧
    (∀ p, p ∈ (prepare_value f (Val.str s0)).1.choices →
       p ∈ f.choices ∨ p.1 ≠ "") := by
  refine ⟨rfl, ?_⟩
  intro p hp
  have hgen : ∀ (ts : List String) (cs : List (String × String))
      (q : String × String),
      q ∈ ts.foldl (prepareValueStep f.validate_choices) cs →
      q ∈ cs ∨ q.1 ≠ "" := by
    intro ts
    induction ts with
    | nil => intro cs q hq; exact Or.inl hq
    | cons t ts ih =>
        intro cs q hq
        rw [List.foldl_cons] at hq
        rcases ih _ q hq with h1 | h1
        · exact prepareValueStep_mem _ _ _ h1
        · exact Or.inr h1
  exact hgen (pySplitComma s0) f.choices p hp

/-- Witness for C10 at an input with leading, doubled and trailing
commas. -/
theorem C10_empty_tokens_not_registered_witness :
    (prepare_value c5Field (Val.str "a,,b,")).2 =
      Val.list ((pySplitComma "a,,b,").map Val.str) ∧
    (("a", "a") ∈ c5Field.choices ∨ ("a", "a").1 ≠ "") :=
  ⟨(C10_empty_tokens_not_registered c5Field "a,,b,").1,
   (C10_empty_tokens_not_registered c5Field "a,,b,").2 ("a", "a") (by decide)⟩

end DjangoRemoteForms
